import Mathlib

/-!
Shallow embedding of the full-node service coordinator in `bhe/backend.go`
(the `BHEereum` service: construction, start/stop lifecycle, mining control,
reorg-preservation policy and the RPC API surface), together with proofs of
the behavioural properties stated about it.

Go `int` values are modelled as `Int`; Go integral division truncates toward
zero, which on `Int` is `Int.tdiv`.  Pointers that may be `nil` are modelled
as `Option`.  Calls into external subsystems (chain, pool, store, engine
internals) are modelled by recording that the call happened (boolean flags /
counters) since their bodies live outside this package.
-/

namespace BHE

/-- A 20-byte account address, modelled as a natural number.
`0` is the zero value `common.Address{}` (the "unset" sentinel). -/
abbrev Address := Nat

/-- The zero address `common.Address{}`. -/
def zeroAddress : Address := 0

/-- The consensus engine variants produced by `CreateConsensusEngine`:
the authority-round (clique) engine when the chain configuration declares
clique, otherwise one of the proof-of-work (BHEash) modes. -/
inductive Engine
  | clique
  | bheashFaker
  | bheashTester
  | bheashShared
  | bheash
  deriving DecidableEq, Repr

/-- The type assertion `s.engine.(*clique.Clique)` in `shouldPreserve`:
whether the engine is the authority-round engine. -/
def Engine.isClique : Engine → Bool
  | .clique => true
  | _ => false

/-- Modelled from the spec: whether the engine implements the optional
`threaded` capability (`SetThreads`).  The engine implementations live
outside this package; per the spec, thread-count rescaling is a capability
of the proof-of-work engines and not of the authority-round engine. -/
def Engine.isThreaded : Engine → Bool
  | .clique => false
  | _ => true

deriving instance DecidableEq for Except

/-- The outcome of `s.engine.Author(block.Header())` for a block: either the
recovered author address or a lookup error.  The engine's recovery algorithm
is external, so a block is represented by this outcome. -/
structure Block where
  authorResult : Except String Address
  deriving DecidableEq, Repr

/-- The mining-related state of the `BHEereum` service: the engine handle,
the cached mining address (`BHEerbase`, zero = unset), the gas-price floor,
the trusted-local address set from `config.TxPool.Locals`, the account
manager's wallets (each a list of account addresses), and the mining-control
effects observed by collaborating subsystems. -/
structure MiningState where
  engine : Engine
  /-- Field `s.BHEerbase`; the zero address means unset (not yet configured). -/
  bheerbase : Address
  /-- Field `s.gasPrice`. -/
  gasPrice : Int
  /-- Field `config.TxPool.Locals`. -/
  txPoolLocals : List Address
  /-- Field `s.accountManager.Wallets()`: each wallet is its account address list. -/
  wallets : List (List Address)
  /-- the minimum price last propagated by `s.txPool.SetGasPrice`. -/
  poolGasPrice : Int
  /-- Field `s.miner.Mining()`, i.e. `s.IsMining()`. -/
  mining : Bool
  /-- the last `SetThreads` argument given to the engine, if any. -/
  engineThreads : Option Int
  /-- the address bound by `clique.Authorize`, if any. -/
  authorized : Option Address
  /-- Field `s.protocolManager.acceptTxs` as a boolean flag. -/
  acceptTxs : Bool
  /-- how many times `go s.miner.Start(eb)` launched the mining loop. -/
  minerLoopStarts : Nat
  deriving DecidableEq, Repr

/-- Method `isLocalBlock`: recover the block author via the engine (a lookup error
is treated as "not local"); a block is local when its author equals the
cached `BHEerbase` or is listed in `config.TxPool.Locals`. -/
def isLocalBlock (s : MiningState) (b : Block) : Bool :=
  match b.authorResult with
  | .error _ => false
  | .ok author =>
    if author = s.bheerbase then true
    else s.txPoolLocals.contains author

/-- Method `shouldPreserve`: the reorg-preservation decision.  Self-reorg
preservation is disabled outright for the clique engine (deadlock risk);
otherwise it delegates to `isLocalBlock`. -/
def shouldPreserve (s : MiningState) (b : Block) : Bool :=
  if s.engine.isClique then false
  else isLocalBlock s b

/-- Error message of `BHEerbase` when no address can be resolved. -/
def errBHEerbaseUnspecified : String := "BHEerbase must be explicitly specified"

/-- Result of one call to the `BHEerbase()` accessor: the returned
address-or-error, the state after the call (the resolved address may have
been cached), and whether the call consulted the account manager
(`s.AccountManager().Wallets()`). -/
structure EbResult where
  result : Except String Address
  state : MiningState
  didLookup : Bool
  deriving DecidableEq, Repr

/-- Method `BHEerbase()`: return the cached mining address when it is set
(non-zero); otherwise consult the account manager — if the first wallet has
at least one account, cache and return its first account's address; else
fail with "BHEerbase must be explicitly specified". -/
def BHEerbase (s : MiningState) : EbResult :=
  if s.bheerbase ≠ zeroAddress then
    ⟨.ok s.bheerbase, s, false⟩
  else
    match s.wallets with
    | (a :: _) :: _ => ⟨.ok a, { s with bheerbase := a }, true⟩
    | _ => ⟨.error errBHEerbaseUnspecified, s, true⟩

/-- Method `StartMining(threads)`: rescale the engine's thread count when the
engine supports it (`0` maps to the disable sentinel `-1`); when the miner
is not already running, propagate the gas-price floor to the pool, resolve
the mining address, for clique find a local wallet for it and authorize the
engine (failure aborts with "signer missing"), flip the sync layer's
accept-transactions flag, and launch the mining loop; when already running,
nothing beyond the thread rescale happens. -/
def StartMining (s : MiningState) (threads : Int) : Except String MiningState :=
  let s := if s.engine.isThreaded then
      { s with engineThreads := some (if threads = 0 then -1 else threads) }
    else s
  if !s.mining then
    let s := { s with poolGasPrice := s.gasPrice }
    let r := BHEerbase s
    match r.result with
    | .error e => .error ("BHEerbase missing: " ++ e)
    | .ok eb =>
      let s := r.state
      let authStep : Except String MiningState :=
        if s.engine.isClique then
          match s.wallets.find? (fun w => w.contains eb) with
          | none => .error ("signer missing")
          | some _ => .ok { s with authorized := some eb }
        else .ok s
      match authStep with
      | .error e => .error e
      | .ok s =>
        .ok { s with acceptTxs := true, mining := true,
                     minerLoopStarts := s.minerLoopStarts + 1 }
  else .ok s

/-! ## The `Stop` lifecycle method -/

/-- The teardown flags of the service observed by `Stop`: one flag per owned
subsystem, plus whether the `closeBloomHandler` channel has been closed and
whether a light server is attached. -/
structure StopState where
  hasLesServer : Bool := false
  protocolStopped : Bool := false
  lesStopped : Bool := false
  bloomIndexerClosed : Bool := false
  closeBloomHandlerClosed : Bool := false
  txPoolStopped : Bool := false
  minerStopped : Bool := false
  blockchainStopped : Bool := false
  engineClosed : Bool := false
  chainDbClosed : Bool := false
  eventMuxStopped : Bool := false
  deriving DecidableEq, Repr

/-- Go panic message for `close` on an already-closed channel. -/
def errCloseClosed : String := "close of closed channel"

/-- The Go builtin `close(ch)`: panics when the channel is already closed. -/
def closeChannel (alreadyClosed : Bool) : Except String Bool :=
  if alreadyClosed then .error errCloseClosed else .ok true

/-- Method `Stop()`: stop the protocol manager, the attached light server if any,
close the bloom indexer, `close(s.closeBloomHandler)` (a Go panic if the
channel is already closed aborts the remaining steps), then stop the pool,
the miner, the chain, close the engine and the store, and stop the event
mux; returns `nil` on completion.  The subsystem stop methods themselves
return nothing, so apart from the channel close no step can fail. -/
def Stop (s : StopState) : Except String StopState := do
  let s := { s with protocolStopped := true }
  let s := if s.hasLesServer then { s with lesStopped := true } else s
  let s := { s with bloomIndexerClosed := true }
  let closedNow ← closeChannel s.closeBloomHandlerClosed
  let s := { s with closeBloomHandlerClosed := closedNow }
  let s := { s with txPoolStopped := true }
  let s := { s with minerStopped := true }
  let s := { s with blockchainStopped := true }
  let s := { s with engineClosed := true }
  let s := { s with chainDbClosed := true }
  let s := { s with eventMuxStopped := true }
  return s

/-! ## The `Start` lifecycle method -/

/-- What one call to `Start(srvr)` did: which subsystems were started, the
peer budget handed to the protocol manager, and the returned error if any. -/
structure StartOutcome where
  entryUpdateStarted : Bool
  bloomHandlersStarted : Bool
  netRPCStarted : Bool
  protocolStarted : Bool
  protocolMaxPeers : Option Int
  lesStarted : Bool
  errorResult : Option String
  deriving DecidableEq, Repr

/-- Error message of `Start` for an over-large light-peer reservation. -/
def errInvalidPeerConfig : String := "invalid peer config: light peer count >= total peer count"

/-- Method `Start(srvr)`: start the ENR entry updater, the bloom-retrieval worker
pool and the net RPC service; then, only when light serving is enabled
(`LightServ > 0`), fail if the light-peer reservation is not strictly below
the server's peer budget, else subtract the reservation; finally start the
protocol manager with the adjusted budget and the light server if attached. -/
def Start (lightServ lightPeers srvrMaxPeers : Int) (hasLes : Bool) : StartOutcome :=
  if lightServ > 0 ∧ lightPeers ≥ srvrMaxPeers then
    { entryUpdateStarted := true, bloomHandlersStarted := true,
      netRPCStarted := true, protocolStarted := false,
      protocolMaxPeers := none, lesStarted := false,
      errorResult := some errInvalidPeerConfig }
  else
    let maxPeers := if lightServ > 0 then srvrMaxPeers - lightPeers else srvrMaxPeers
    { entryUpdateStarted := true, bloomHandlersStarted := true,
      netRPCStarted := true, protocolStarted := true,
      protocolMaxPeers := some maxPeers,
      lesStarted := hasLes, errorResult := none }

/-! ## Construction (`New`) -/

/-- The configuration fields consulted by the modelled prefix of `New`.
Go `int` cache budgets are `Int`; the `*big.Int` gas price is `Option Int`
(`none` = nil pointer). -/
structure Config where
  syncMode : Int
  minerGasPrice : Option Int
  noPruning : Bool
  trieCleanCache : Int
  trieDirtyCache : Int
  snapshotCache : Int
  skipBcVersionCheck : Bool
  deriving DecidableEq, Repr

/-- Modelled from the spec: the sync-mode enum `downloader.SyncMode` is
outside this package.  Full sync is `0`, fast sync is `1`, light sync is
`2`; `IsValid` accepts exactly the range from full to light. -/
def lightSyncMode : Int := 2

/-- Modelled from the spec: `downloader.SyncMode.IsValid`, true exactly for
the recognized modes (full, fast, light). -/
def syncModeIsValid (m : Int) : Bool := 0 ≤ m ∧ m ≤ lightSyncMode

/-- Sanitation step `if config.Miner.GasPrice == nil || config.Miner.GasPrice.Cmp(common.Big0) <= 0` of `New`:
replace a nil or non-positive gas-price floor by the documented default
(`DefaultConfig.Miner.GasPrice`, a constant outside this file, passed in). -/
def sanitizeGasPrice (c : Config) (defaultGasPrice : Int) : Config :=
  match c.minerGasPrice with
  | none => { c with minerGasPrice := some defaultGasPrice }
  | some p =>
    if p ≤ 0 then { c with minerGasPrice := some defaultGasPrice } else c

/-- The trie-cache redistribution of `New`: when pruning is disabled and the
dirty budget is positive, move it into the clean (and, when snapshot caching
is on, snapshot) budgets with Go's truncating integer division, and zero the
dirty budget. -/
def sanitizeTrieCaches (c : Config) : Config :=
  if c.noPruning ∧ c.trieDirtyCache > 0 then
    let c :=
      if c.snapshotCache > 0 then
        { c with trieCleanCache := c.trieCleanCache + Int.tdiv (c.trieDirtyCache * 3) 5,
                 snapshotCache := c.snapshotCache + Int.tdiv (c.trieDirtyCache * 2) 5 }
      else
        { c with trieCleanCache := c.trieCleanCache + c.trieDirtyCache }
    { c with trieDirtyCache := 0 }
  else c

/-- Error message prefix of `New` for a database version ahead of the code. -/
def errVersionMismatch : String := "database version is newer than supported"

/-- The schema-version check of `New` (`rawdb.ReadDatabaseVersion` result
against `core.BlockChainVersion`): a strictly newer on-disk version is
fatal; an absent or strictly older one has the expected version written
back (`.ok (some expected)`); otherwise nothing is written.  Skipped
entirely when `SkipBcVersionCheck` is set. -/
def versionCheck (bcVersion : Option Nat) (expected : Nat) (skip : Bool) :
    Except String (Option Nat) :=
  if !skip then
    if (match bcVersion with | some v => decide (v > expected) | none => false) then
      .error errVersionMismatch
    else if (match bcVersion with | some v => decide (v < expected) | none => true) then
      .ok (some expected)
    else
      .ok none
  else
    .ok none

/-- Error messages of the sync-mode checks of `New`. -/
def errLightSync : String := "cant run BHE.BHEereum in light sync mode, use les.LightBHEereum"

/-- Error message of `New` for an unrecognized sync mode. -/
def errInvalidSyncMode : String := "invalid sync mode"

/-- What the modelled prefix of `New` produced: the sanitized configuration
(or the abort error), whether the chain database was opened, and the schema
version written to it, if any. -/
structure NewResult where
  result : Except String Config
  dbOpened : Bool
  versionWritten : Option Nat
  deriving DecidableEq, Repr

/-- The configuration-validation prefix of `New`: reject light sync and
unrecognized sync modes before anything else; sanitize the gas-price floor
and the trie-cache budgets; open the chain database; run the schema-version
check against the on-disk version.  The remaining construction steps build
external subsystems (chain, pool, protocol manager, miner, API backend) and
are outside this model. -/
def New (c : Config) (bcVersion : Option Nat) (blockChainVersion : Nat)
    (defaultGasPrice : Int) : NewResult :=
  if c.syncMode = lightSyncMode then
    { result := .error errLightSync, dbOpened := false, versionWritten := none }
  else if !syncModeIsValid c.syncMode then
    { result := .error errInvalidSyncMode, dbOpened := false, versionWritten := none }
  else
    let c := sanitizeGasPrice c defaultGasPrice
    let c := sanitizeTrieCaches c
    match versionCheck bcVersion blockChainVersion c.skipBcVersionCheck with
    | .error e => { result := .error e, dbOpened := true, versionWritten := none }
    | .ok written => { result := .ok c, dbOpened := true, versionWritten := written }

/-! ## The `APIs` accessor -/

/-- One `rpc.API` entry: namespace, version, the service implementation (by
name) and the public flag. -/
structure RpcAPI where
  ns : String
  version : String
  service : String
  public : Bool
  deriving DecidableEq, Repr

/-- The nine API entries built inline at the end of `APIs`. -/
def localAPIs : List RpcAPI :=
  [⟨"BHE", "1.0", "PublicBHEereumAPI", true⟩,
   ⟨"BHE", "1.0", "PublicMinerAPI", true⟩,
   ⟨"BHE", "1.0", "PublicDownloaderAPI", true⟩,
   ⟨"miner", "1.0", "PrivateMinerAPI", false⟩,
   ⟨"BHE", "1.0", "PublicFilterAPI", true⟩,
   ⟨"admin", "1.0", "PrivateAdminAPI", false⟩,
   ⟨"debug", "1.0", "PublicDebugAPI", true⟩,
   ⟨"debug", "1.0", "PrivateDebugAPI", false⟩,
   ⟨"net", "1.0", "PublicNetAPI", true⟩]

/-- The API-relevant state of the service: the base API list from
`BHEapi.GetAPIs`, the attached light server's API list, the consensus
engine's API list, and whether a light server is attached at all. -/
structure APIState where
  bheapiApis : List RpcAPI
  lesApis : List RpcAPI
  engineApis : List RpcAPI
  hasLesServer : Bool
  deriving DecidableEq, Repr

/-- Method `APIs()`: start from `BHEapi.GetAPIs`; append the light server's APIs
when one is attached; append the engine's APIs; append the light server's
APIs once more when one is attached (the duplicated block in the source);
finally append the nine locally built entries. -/
def APIs (s : APIState) : List RpcAPI :=
  let apis := s.bheapiApis
  let apis := if s.hasLesServer then apis ++ s.lesApis else apis
  let apis := apis ++ s.engineApis
  let apis := if s.hasLesServer then apis ++ s.lesApis else apis
  apis ++ localAPIs

/-! ## Sample values used by the evaluation theorems -/

/-- A clique-engine service whose mining address is account `7`. -/
def cliqueState : MiningState :=
  ⟨.clique, 7, 1, [], [[7]], 0, false, none, none, false, 0⟩

/-- A BHEash-engine service whose mining address is account `7`. -/
def bheashState : MiningState :=
  ⟨.bheash, 7, 1, [], [[7]], 0, false, none, none, false, 0⟩

/-- A BHEash-engine service with an unset mining address whose first wallet
holds account `7`. -/
def autoResolveState : MiningState :=
  ⟨.bheash, 0, 1, [], [[7]], 0, false, none, none, false, 0⟩

/-- A BHEash-engine service with an unset mining address whose first wallet
holds exactly the zero-address account. -/
def zeroWalletState : MiningState :=
  ⟨.bheash, 0, 1, [], [[0]], 0, false, none, none, false, 0⟩

/-- A BHEash-engine service whose mining loop is already running. -/
def miningRunningState : MiningState :=
  ⟨.bheash, 7, 5, [], [[7]], 5, true, none, none, true, 1⟩

/-- A block whose recovered author is account `7`. -/
def blockBySeven : Block := ⟨.ok 7⟩

/-- A pruning-disabled configuration with snapshot caching on:
clean 10, dirty 7, snapshot 4. -/
def cfgSnap : Config := ⟨0, some 1, true, 10, 7, 4, false⟩

/-- A pruning-disabled configuration with snapshot caching off:
clean 10, dirty 7, snapshot 0. -/
def cfgNoSnap : Config := ⟨0, some 1, true, 10, 7, 0, false⟩

/-- A configuration whose gas-price floor is the non-positive value `0`. -/
def cfgZeroPrice : Config := ⟨0, some 0, false, 0, 0, 0, false⟩

/-- A configuration requesting light sync. -/
def cfgLight : Config := ⟨2, some 1, false, 0, 0, 0, false⟩

/-- A configuration with the unrecognized sync mode `9`. -/
def cfgBadSync : Config := ⟨9, some 1, false, 0, 0, 0, false⟩

/-- A never-stopped service with no light server attached. -/
def freshStopState : StopState := {}

/-- State `freshStopState` after one successful `Stop`. -/
def stoppedState : StopState :=
  ⟨false, true, false, true, true, true, true, true, true, true, true⟩

/-- A sample base API entry. -/
def apiBase : RpcAPI := ⟨"BHE", "1.0", "base", true⟩

/-- A sample light-server API entry. -/
def apiLes : RpcAPI := ⟨"les", "1.0", "LightServerAPI", true⟩

/-- A sample engine API entry. -/
def apiEngine : RpcAPI := ⟨"clique", "1.0", "engine", false⟩

/-- An API state with a light server attached. -/
def apiStateLes : APIState := ⟨[apiBase], [apiLes], [apiEngine], true⟩

/-- An API state without a light server. -/
def apiStateNoLes : APIState := ⟨[apiBase], [apiLes], [apiEngine], false⟩

/-! ## Claim theorems -/

/-- Claim C1: for every block, the reorg-preservation decision
(`shouldPreserve`) is false whenever the engine is the authority-round
(clique) engine, regardless of whether the block is local; for every other
engine it equals `isLocalBlock` on that block. -/
theorem shouldPreserve_clique_false_else_isLocalBlock
    (s : MiningState) (b : Block) :
    (s.engine.isClique = true → shouldPreserve s b = false) ∧
    (s.engine.isClique = false → shouldPreserve s b = isLocalBlock s b) := by
  refine ⟨fun h => ?_, fun h => ?_⟩ <;> simp [shouldPreserve, h]

/-- Evaluation of claim C1 on concrete services: a block authored by the
local mining address is not preserved under clique but is preserved (being
local) under BHEash. -/
theorem shouldPreserve_clique_false_else_isLocalBlock_witness :
    shouldPreserve cliqueState blockBySeven = false ∧
    shouldPreserve bheashState blockBySeven = isLocalBlock bheashState blockBySeven :=
  ⟨(shouldPreserve_clique_false_else_isLocalBlock cliqueState blockBySeven).1 rfl,
   (shouldPreserve_clique_false_else_isLocalBlock bheashState blockBySeven).2 rfl⟩

/-- Claim C4: with pruning disabled and dirty budget `D > 0`, construction
redistributes the cache budgets: snapshot caching on — clean `+= 3D/5`,
snapshot `+= 2D/5`; snapshot caching off — clean `+= D`; the dirty budget
ends at `0` (truncating integer division). -/
theorem trieCacheRedistribution (c : Config) (hp : c.noPruning = true)
    (hd : 0 < c.trieDirtyCache) :
    (0 < c.snapshotCache →
      (sanitizeTrieCaches c).trieCleanCache
          = c.trieCleanCache + Int.tdiv (3 * c.trieDirtyCache) 5 ∧
      (sanitizeTrieCaches c).snapshotCache
          = c.snapshotCache + Int.tdiv (2 * c.trieDirtyCache) 5 ∧
      (sanitizeTrieCaches c).trieDirtyCache = 0) ∧
    (¬ 0 < c.snapshotCache →
      (sanitizeTrieCaches c).trieCleanCache = c.trieCleanCache + c.trieDirtyCache ∧
      (sanitizeTrieCaches c).snapshotCache = c.snapshotCache ∧
      (sanitizeTrieCaches c).trieDirtyCache = 0) := by
  unfold sanitizeTrieCaches
  constructor
  · intro hs
    simp [hp, hd, hs, mul_comm]
  · intro hs
    simp [hp, hd, hs]

/-- Evaluation of claim C4: clean 10 / dirty 7 / snapshot 4 becomes
clean 14 / snapshot 6 / dirty 0; with snapshot caching off it becomes
clean 17 / dirty 0. -/
theorem trieCacheRedistribution_witness :
    (sanitizeTrieCaches cfgSnap).trieCleanCache = 10 + Int.tdiv (3 * 7) 5 ∧
    (sanitizeTrieCaches cfgSnap).snapshotCache = 4 + Int.tdiv (2 * 7) 5 ∧
    (sanitizeTrieCaches cfgSnap).trieDirtyCache = 0 ∧
    (sanitizeTrieCaches cfgNoSnap).trieCleanCache = 10 + 7 ∧
    (sanitizeTrieCaches cfgNoSnap).trieDirtyCache = 0 := by
  have h1 := (trieCacheRedistribution cfgSnap rfl (by decide)).1 (by decide)
  have h2 := (trieCacheRedistribution cfgNoSnap rfl (by decide)).2 (by decide)
  exact ⟨h1.1, h1.2.1, h1.2.2, h2.1, h2.2.2⟩

/-- Claim C8: a non-positive configured gas-price floor is replaced by the
documented default floor; a positive configured floor is kept unchanged. -/
theorem gasPriceSanitize (c : Config) (d : Int) :
    (∀ p : Int, c.minerGasPrice = some p → p ≤ 0 →
      (sanitizeGasPrice c d).minerGasPrice = some d) ∧
    (∀ p : Int, c.minerGasPrice = some p → 0 < p →
      (sanitizeGasPrice c d).minerGasPrice = some p) := by
  constructor
  · intro p hp hle
    simp [sanitizeGasPrice, hp, hle]
  · intro p hp hpos
    simp [sanitizeGasPrice, hp, not_le.mpr hpos]

/-- Evaluation of claim C8: floor `0` is replaced by the default `1000`;
floor `1` is kept. -/
theorem gasPriceSanitize_witness :
    (sanitizeGasPrice cfgZeroPrice 1000).minerGasPrice = some 1000 ∧
    (sanitizeGasPrice cfgSnap 1000).minerGasPrice = some 1 :=
  ⟨(gasPriceSanitize cfgZeroPrice 1000).1 0 rfl (by decide),
   (gasPriceSanitize cfgSnap 1000).2 1 rfl (by decide)⟩

/-- Claim C9: construction fails before opening the store whenever the sync
mode is light sync, and whenever the sync mode is unrecognized. -/
theorem newRejectsBadSyncModes (c : Config) (bv : Option Nat) (exp : Nat)
    (d : Int) :
    (c.syncMode = lightSyncMode →
      New c bv exp d =
        { result := .error errLightSync, dbOpened := false, versionWritten := none }) ∧
    (syncModeIsValid c.syncMode = false →
      New c bv exp d =
        { result := .error errInvalidSyncMode, dbOpened := false, versionWritten := none }) := by
  constructor
  · intro h
    simp [New, h]
  · intro h
    have hne : c.syncMode ≠ lightSyncMode := by
      intro hl
      rw [hl] at h
      simp [syncModeIsValid, lightSyncMode] at h
    simp [New, hne, h]

/-- Evaluation of claim C9: the light-sync configuration and the sync-mode-9
configuration both abort with the database unopened. -/
theorem newRejectsBadSyncModes_witness :
    New cfgLight none 9 1000 =
      { result := .error errLightSync, dbOpened := false, versionWritten := none } ∧
    New cfgBadSync none 9 1000 =
      { result := .error errInvalidSyncMode, dbOpened := false, versionWritten := none } :=
  ⟨(newRejectsBadSyncModes cfgLight none 9 1000).1 rfl,
   (newRejectsBadSyncModes cfgBadSync none 9 1000).2 (by decide)⟩

/-- Gas-price sanitation never touches the skip-version-check flag. -/
theorem sanitizeGasPrice_skip (c : Config) (d : Int) :
    (sanitizeGasPrice c d).skipBcVersionCheck = c.skipBcVersionCheck := by
  unfold sanitizeGasPrice
  cases c.minerGasPrice
  · rfl
  · dsimp only
    split <;> rfl

/-- Trie-cache sanitation never touches the skip-version-check flag. -/
theorem sanitizeTrieCaches_skip (c : Config) :
    (sanitizeTrieCaches c).skipBcVersionCheck = c.skipBcVersionCheck := by
  unfold sanitizeTrieCaches
  split
  · split <;> rfl
  · rfl

/-- The sanitation steps of `New` never touch the skip-version-check flag. -/
theorem sanitize_preserves_skip (c : Config) (d : Int) :
    (sanitizeTrieCaches (sanitizeGasPrice c d)).skipBcVersionCheck
      = c.skipBcVersionCheck :=
  (sanitizeTrieCaches_skip _).trans (sanitizeGasPrice_skip c d)

/-- Claim C5: with the version check not skipped, a strictly newer on-disk
schema version aborts construction with a version-mismatch error; an absent
or strictly older one lets construction proceed and rewrites the stored
version marker to the expected version. -/
theorem newVersionCheck (c : Config) (bv : Option Nat) (exp : Nat) (d : Int)
    (hskip : c.skipBcVersionCheck = false)
    (hlight : c.syncMode ≠ lightSyncMode)
    (hvalid : syncModeIsValid c.syncMode = true) :
    (∀ v, bv = some v → exp < v →
      (New c bv exp d).result = .error errVersionMismatch ∧
      (New c bv exp d).versionWritten = none) ∧
    ((bv = none ∨ ∃ v, bv = some v ∧ v < exp) →
      (∃ c', (New c bv exp d).result = .ok c') ∧
      (New c bv exp d).versionWritten = some exp) := by
  have hsk := sanitize_preserves_skip c d
  constructor
  · intro v hv hgt
    rw [hv]
    simp only [New, hlight, hvalid]
    simp [versionCheck, hsk, hskip, hgt]
  · intro hcase
    rcases hcase with hnone | ⟨v, hv, hlt⟩
    · rw [hnone]
      simp only [New, hlight, hvalid]
      simp [versionCheck, hsk, hskip]
    · rw [hv]
      simp only [New, hlight, hvalid]
      simp [versionCheck, hsk, hskip, hlt, Nat.not_lt_of_lt hlt]

/-- Evaluation of claim C5: on-disk version 7 against expected 9 proceeds
and writes marker 9; on-disk version 9 against expected 7 aborts. -/
theorem newVersionCheck_witness :
    ((∃ c', (New cfgSnap (some 7) 9 1000).result = .ok c') ∧
      (New cfgSnap (some 7) 9 1000).versionWritten = some 9) ∧
    ((New cfgSnap (some 9) 7 1000).result = .error errVersionMismatch ∧
      (New cfgSnap (some 9) 7 1000).versionWritten = none) :=
  ⟨(newVersionCheck cfgSnap (some 7) 9 1000 rfl (by decide) (by decide)).2
      (Or.inr ⟨7, rfl, by decide⟩),
   (newVersionCheck cfgSnap (some 9) 7 1000 rfl (by decide) (by decide)).1
      9 rfl (by decide)⟩

/-- Claim C10: with a light server attached, `APIs` appends the light
server's API list twice, so every light-server API appears with doubled
multiplicity; without one, no light-server API is appended. -/
theorem apisDuplicateLes (s : APIState) :
    (s.hasLesServer = true →
      APIs s = s.bheapiApis ++ s.lesApis ++ s.engineApis ++ s.lesApis ++ localAPIs ∧
      ∀ a : RpcAPI,
        (APIs s).count a
          = s.bheapiApis.count a + s.engineApis.count a + localAPIs.count a
            + 2 * s.lesApis.count a) ∧
    (s.hasLesServer = false →
      APIs s = s.bheapiApis ++ s.engineApis ++ localAPIs) := by
  constructor
  · intro h
    constructor
    · simp [APIs, h, List.append_assoc]
    · intro a
      simp [APIs, h, List.count_append]
      ring
  · intro h
    simp [APIs, h, List.append_assoc]

/-- Evaluation of claim C10 on one-element API lists: the les entry shows up
twice when a light server is attached and not at all otherwise. -/
theorem apisDuplicateLes_witness :
    (APIs apiStateLes
        = apiStateLes.bheapiApis ++ apiStateLes.lesApis ++ apiStateLes.engineApis
          ++ apiStateLes.lesApis ++ localAPIs ∧
      (APIs apiStateLes).count apiLes
        = apiStateLes.bheapiApis.count apiLes + apiStateLes.engineApis.count apiLes
          + localAPIs.count apiLes + 2 * apiStateLes.lesApis.count apiLes) ∧
    APIs apiStateNoLes
      = apiStateNoLes.bheapiApis ++ apiStateNoLes.engineApis ++ localAPIs :=
  ⟨⟨((apisDuplicateLes apiStateLes).1 rfl).1,
    ((apisDuplicateLes apiStateLes).1 rfl).2 apiLes⟩,
   (apisDuplicateLes apiStateNoLes).2 rfl⟩

/-- Claim C6: calling `StartMining` while mining is already running returns
no error and changes nothing but the engine thread count — in particular the
pool's minimum gas price, the mining address, the authorization binding, the
accept-transactions flag and the number of launched mining loops are all
untouched. -/
theorem startMiningAlreadyRunning (s : MiningState) (t : Int)
    (h : s.mining = true) :
    StartMining s t =
      .ok { s with engineThreads :=
              if s.engine.isThreaded then some (if t = 0 then -1 else t)
              else s.engineThreads } := by
  obtain ⟨e, eb, gp, locs, ws, pgp, m, et, au, atx, ml⟩ := s
  dsimp only at h ⊢
  subst h
  unfold StartMining
  cases hth : e.isThreaded <;> simp [hth]

/-- Evaluation of claim C6: a second `StartMining 4` on a running service
only records the new thread count. -/
theorem startMiningAlreadyRunning_witness :
    StartMining miningRunningState 4 =
      .ok { miningRunningState with engineThreads := some 4 } := by
  simpa using startMiningAlreadyRunning miningRunningState 4 rfl

/-- Counterexample to claim C7 as stated: when the first wallet's first
account is the zero address, the first `BHEerbase` call succeeds (returning
the zero address and "caching" it), yet the second call performs another
account-manager lookup, because the cached zero value is indistinguishable
from "unset". -/
theorem bheerbaseIdempotent_counterexample :
    (BHEerbase zeroWalletState).result = .ok zeroAddress ∧
    (BHEerbase zeroWalletState).didLookup = true ∧
    (BHEerbase (BHEerbase zeroWalletState).state).result = .ok zeroAddress ∧
    (BHEerbase (BHEerbase zeroWalletState).state).didLookup = true :=
  ⟨rfl, rfl, rfl, rfl⟩

/-- Claim C7 (amended): after a first `BHEerbase` call that succeeds with a
nonzero address — whether it was explicit or auto-resolved and cached — a
second call returns the same address, performs no account-manager lookup and
leaves the state unchanged. -/
theorem bheerbaseCachedNonzero (s : MiningState) (a : Address)
    (h : (BHEerbase s).result = .ok a) (ha : a ≠ zeroAddress) :
    BHEerbase (BHEerbase s).state = ⟨.ok a, (BHEerbase s).state, false⟩ := by
  by_cases hb : s.bheerbase = zeroAddress
  · rcases hw : s.wallets with _ | ⟨w, ws⟩
    · exfalso
      unfold BHEerbase at h
      rw [if_neg (not_not_intro hb), hw] at h
      simp at h
    · rcases w with _ | ⟨x, xs⟩
      · exfalso
        unfold BHEerbase at h
        rw [if_neg (not_not_intro hb), hw] at h
        simp at h
      · have h1 : BHEerbase s = ⟨.ok x, { s with bheerbase := x }, true⟩ := by
          unfold BHEerbase
          rw [if_neg (not_not_intro hb), hw]
        rw [h1] at h ⊢
        have hxa : x = a := by simpa using h
        subst hxa
        simp [BHEerbase, ha]
  · have h1 : BHEerbase s = ⟨.ok s.bheerbase, s, false⟩ := by
      unfold BHEerbase
      rw [if_pos hb]
    rw [h1] at h ⊢
    have hba : s.bheerbase = a := by simpa using h
    unfold BHEerbase
    rw [if_pos hb, hba]

/-- Evaluation of the amended claim C7: after auto-resolving account `7`
from the first wallet, the second call returns `7` without a lookup. -/
theorem bheerbaseCachedNonzero_witness :
    BHEerbase (BHEerbase autoResolveState).state
      = ⟨.ok 7, (BHEerbase autoResolveState).state, false⟩ :=
  bheerbaseCachedNonzero autoResolveState 7 rfl (by decide)

/-- Counterexample to claim C2 as stated: a first `Stop` on a fresh service
succeeds, but a second `Stop` hits the Go panic of closing the
already-closed `closeBloomHandler` channel instead of completing. -/
theorem stopIdempotent_counterexample :
    Stop freshStopState = .ok stoppedState ∧
    Stop stoppedState = .error errCloseClosed :=
  ⟨rfl, rfl⟩

/-- Claim C2 (amended): `Stop` is callable at most once, not idempotent.  A
call finding the bloom-handler close channel still open attempts every
teardown step and returns no error; a call finding it already closed — in
particular any second call — panics on `close(s.closeBloomHandler)` and the
steps after it are not attempted. -/
theorem stopAtMostOnce (s : StopState) :
    (s.closeBloomHandlerClosed = false →
      Stop s = .ok { s with
        protocolStopped := true,
        lesStopped := if s.hasLesServer then true else s.lesStopped,
        bloomIndexerClosed := true,
        closeBloomHandlerClosed := true,
        txPoolStopped := true,
        minerStopped := true,
        blockchainStopped := true,
        engineClosed := true,
        chainDbClosed := true,
        eventMuxStopped := true }) ∧
    (s.closeBloomHandlerClosed = true →
      Stop s = .error errCloseClosed) := by
  constructor
  · intro h
    cases hles : s.hasLesServer <;> simp [Stop, closeChannel, h, hles]
  · intro h
    cases hles : s.hasLesServer <;> simp [Stop, closeChannel, h, hles]

/-- Evaluation of the amended claim C2: a first `Stop` on a service with a
light server attached tears everything down; `Stop` on an already-stopped
service panics. -/
theorem stopAtMostOnce_witness :
    Stop { hasLesServer := true } =
      .ok ⟨true, true, true, true, true, true, true, true, true, true, true⟩ ∧
    Stop stoppedState = .error errCloseClosed :=
  ⟨by simpa using (stopAtMostOnce { hasLesServer := true }).1 rfl,
   (stopAtMostOnce stoppedState).2 rfl⟩

/-- Counterexample to claim C3 as stated: with light serving disabled
(`LightServ = 0`), `Start` returns no error even though the light-peer
reservation 50 is not below the peer budget 25; and when the check does
fire (`LightServ = 1`), the bloom-retrieval workers have already been
started. -/
theorem startPeerCheck_counterexample :
    (50 : Int) ≥ 25 ∧
    (Start 0 50 25 false).errorResult = none ∧
    (Start 0 50 25 false).protocolStarted = true ∧
    (Start 1 50 25 false).errorResult = some errInvalidPeerConfig ∧
    (Start 1 50 25 false).bloomHandlersStarted = true :=
  ⟨by decide, rfl, rfl, rfl, rfl⟩

/-- Claim C3 (amended): only when light serving is enabled (`LightServ > 0`)
does a light-peer reservation at or above the server's peer budget make
`Start` return an explicit configuration error; the protocol/sync layer and
the light server are then not started, but the ENR entry updater, the
bloom-retrieval workers and the net RPC service have already been started
before the check.  With light serving disabled the check is skipped and
`Start` proceeds with the full peer budget. -/
theorem startPeerCheck (ls lp mp : Int) (hasLes : Bool) :
    (0 < ls → mp ≤ lp →
      Start ls lp mp hasLes =
        ⟨true, true, true, false, none, false, some errInvalidPeerConfig⟩) ∧
    (¬ 0 < ls →
      Start ls lp mp hasLes = ⟨true, true, true, true, some mp, hasLes, none⟩) := by
  constructor
  · intro h1 h2
    unfold Start
    rw [if_pos ⟨h1, h2⟩]
  · intro h
    unfold Start
    rw [if_neg (fun hc => h hc.1)]
    simp [if_neg h]

/-- Evaluation of the amended claim C3: reservation 50 against budget 25
errors with the bloom workers already running when light serving is on, and
sails through when it is off. -/
theorem startPeerCheck_witness :
    Start 1 50 25 true =
      ⟨true, true, true, false, none, false, some errInvalidPeerConfig⟩ ∧
    Start 0 50 25 false = ⟨true, true, true, true, some 25, false, none⟩ :=
  ⟨(startPeerCheck 1 50 25 true).1 (by decide) (by decide),
   (startPeerCheck 0 50 25 false).2 (by decide)⟩

end BHE
